import Mathlib

/-!
# Verification of the Odin's Eye telemetry collector (`app/main.py`)

This file is a shallow embedding, in Lean 4, of the endpoint handlers of the
FastAPI service in `app/main.py`, together with proofs of the behavioural
properties claimed in the specification.

Modelling conventions:

* A `subprocess.run(...)` call is modelled by its observable outcome
  (`CallOutcome`): either a completed process (`CmdResult`: return code,
  stdout, stderr), a `subprocess.TimeoutExpired`, or a `FileNotFoundError`.
  Each handler becomes a total function from the outcomes of the external
  calls it makes (its "world") to the JSON body it returns.  A handler that
  returns a body corresponds to HTTP 200 in FastAPI; none of the embedded
  handlers can raise past their outermost `try`.
* Python `int(...)`/`float(...)` are modelled by `pyInt`/`pyFloat` over the
  decimal literals the handlers actually receive (optional surrounding
  whitespace, optional sign, digits, and for floats one optional decimal
  point).  On any other input they produce a `ValueError`, as Python does.
* Python true division `/` and `round(x, 1)` are modelled over `ℚ` (Python
  uses binary floats; the claims under verification only involve values on
  which the two agree exactly).  `round` uses Python's round-half-to-even.
* `str.split(", ")` is `pySplitCS`, `str.split(sep)` for a one-character
  separator is `splitOnChar`, `str.split(sep, maxsplit)` is `pySplitMax`,
  whitespace `str.split()` is `pySplitWs`, `str.strip()` is `pyStrip` —
  all by structural recursion over the character list so that the kernel
  can evaluate them on concrete witnesses.
* Exceptions are values of `PyExc`; `Except PyExc` threads them to the
  `except` clause that catches them in the source.
-/

/- Mathlib marks the `Rat` field operations irreducible; restore
definitional transparency so that concrete witnesses evaluate. -/
set_option allowUnsafeReducibility true
attribute [local semireducible] Rat.add Rat.mul Rat.sub Rat.neg Rat.inv Rat.div

namespace OdinsEye

/-- A Python exception relevant to the handlers under study. -/
inductive PyExc where
  | valueError (literal : String)
  | zeroDivisionError
  | timeoutExpired
  | fileNotFoundError
  deriving DecidableEq, Repr

/-- The completed-process result of `subprocess.run`: `returncode`, captured
`stdout` and `stderr` (`capture_output=True, text=True`). -/
structure CmdResult where
  returncode : Int
  stdout : String
  stderr : String
  deriving DecidableEq, Repr

/-- Observable outcome of one `subprocess.run` call. -/
inductive CallOutcome where
  | ok (r : CmdResult)
  | timeoutExpired
  | fileNotFound
  deriving DecidableEq, Repr

/-- An outcome that is an external-call failure in the spec's taxonomy:
timeout, missing binary, or non-zero exit. -/
def CallOutcome.isFail : CallOutcome → Bool
  | .ok r => r.returncode != 0
  | .timeoutExpired => true
  | .fileNotFound => true

/-! ### String primitives

Python's `str.strip`/`str.split` are modelled by structural recursion over
the character list (core's `String.splitOn` is defined by well-founded
recursion, which the kernel cannot evaluate, so concrete witnesses could
not be checked through it).  `Char.isWhitespace` covers the whitespace
characters occurring in CLI output (space, tab, CR, LF). -/

/-- Python `s.strip()` on the character list. -/
def pyStripChars (cs : List Char) : List Char :=
  ((cs.dropWhile Char.isWhitespace).reverse.dropWhile Char.isWhitespace).reverse

/-- Python `s.strip()`. -/
def pyStrip (s : String) : String :=
  String.mk (pyStripChars s.toList)

/-- Split on the two-character separator `", "` (Python `s.split(", ")`):
greedy left-to-right, empty fields kept. -/
def splitCommaSpace : List Char → List (List Char)
  | [] => [[]]
  | ',' :: ' ' :: rest =>
      [] :: splitCommaSpace rest
  | c :: rest =>
      match splitCommaSpace rest with
      | [] => [[c]]
      | p :: ps => (c :: p) :: ps

/-- Split on a one-character separator (Python `s.split(sep)` for the
separators `","`, `"\n"`, `"."`): empty fields kept. -/
def splitOnChar (sep : Char) : List Char → List (List Char)
  | [] => [[]]
  | c :: rest =>
      if c = sep then [] :: splitOnChar sep rest
      else
        match splitOnChar sep rest with
        | [] => [[c]]
        | p :: ps => (c :: p) :: ps

/-- Join with a one-character separator (inverse of `splitOnChar`). -/
def joinWithChar (sep : Char) : List (List Char) → List Char
  | [] => []
  | [p] => p
  | p :: ps => p ++ sep :: joinWithChar sep ps

/-- Python `s.split(", ")`. -/
def pySplitCS (s : String) : List String :=
  (splitCommaSpace s.toList).map String.mk

/-- Numeric value of a list of decimal digit characters. -/
def digitsVal (cs : List Char) : Nat :=
  cs.foldl (fun a c => a * 10 + (c.toNat - 48)) 0

/-- The characters form a nonempty run of decimal digits. -/
def allDigits (cs : List Char) : Bool :=
  !cs.isEmpty && cs.all Char.isDigit

/-- Optional leading sign of a Python numeric literal. -/
def pySign : List Char → Int × List Char
  | '-' :: rest => (-1, rest)
  | '+' :: rest => (1, rest)
  | cs => (1, cs)

/-- Python `int(s)` on the text the handlers receive: optional surrounding
whitespace, optional sign, then decimal digits; anything else raises
`ValueError` (underscore digit grouping is not used by any input modelled
here and is not modelled). -/
def pyInt (s : String) : Except PyExc Int :=
  let (sgn, body) := pySign (pyStripChars s.toList)
  if allDigits body then .ok (sgn * (digitsVal body : Int))
  else .error (.valueError s)

/-- Python `float(s)` on the text the handlers receive: optional surrounding
whitespace, optional sign, then decimal digits with at most one decimal
point and at least one digit; anything else raises `ValueError`
(exponents, `inf`, `nan` are not produced by the CLIs modelled here). -/
def pyFloat (s : String) : Except PyExc ℚ :=
  let (sgn, body) := pySign (pyStripChars s.toList)
  match splitOnChar '.' body with
  | [ip] =>
      if allDigits ip then .ok ((sgn : ℚ) * (digitsVal ip : ℚ))
      else .error (.valueError s)
  | [ip, fp] =>
      if allDigits (ip ++ fp) then
        .ok ((sgn : ℚ) * ((digitsVal ip : ℚ)
          + (digitsVal fp : ℚ) / ((10 : ℚ) ^ fp.length)))
      else .error (.valueError s)
  | _ => .error (.valueError s)

/-- Python true division on integers: raises `ZeroDivisionError` on a zero
divisor, otherwise yields the exact quotient. -/
def pyDiv (a b : Int) : Except PyExc ℚ :=
  if b = 0 then .error .zeroDivisionError
  else .ok ((a : ℚ) / (b : ℚ))

/-- Round to the nearest integer, ties to the even integer (Python's
`round` on a value exactly representable). -/
def roundHalfEven (x : ℚ) : Int :=
  let f := ⌊x⌋
  let r := x - (f : ℚ)
  if r < 1/2 then f
  else if 1/2 < r then f + 1
  else if Even f then f else f + 1

/-- Python `round(x, 1)`. -/
def pyRound1 (x : ℚ) : ℚ :=
  (roundHalfEven (10 * x) : ℚ) / 10

/-- `result.stdout.strip().split("\n")`: the line list every handler
iterates over. -/
def pyLines (stdout : String) : List String :=
  (splitOnChar '\n' (pyStripChars stdout.toList)).map String.mk

/-- Python `s.split(sep, maxsplit)` for a one-character separator: at most
`maxsplit` splits, the remainder kept whole. -/
def pySplitMax (s : String) (sep : Char) (maxsplit : Nat) : List String :=
  let ps := splitOnChar sep s.toList
  if ps.length ≤ maxsplit + 1 then ps.map String.mk
  else (ps.take maxsplit).map String.mk
    ++ [String.mk (joinWithChar sep (ps.drop maxsplit))]

/-- Python `s.split()` (no separator): split on whitespace runs, no empty
fields. -/
def pySplitWs (s : String) : List String :=
  ((s.toList.splitOnP Char.isWhitespace).filter
    (fun p => p.isEmpty = false)).map String.mk

/-! ## `get_system_info` (served by `/` and `/api/status`) -/

/-- `psutil.virtual_memory()`: the fields the handler reads.  `percent` is
the percentage *computed upstream by psutil* (from total and available, with
psutil's own rounding), carried as an opaque input. -/
structure VirtualMemory where
  total : Int
  used : Int
  percent : ℚ
  deriving DecidableEq, Repr

/-- `psutil.disk_usage("/")`: the fields the handler reads (psutil also
computes a `percent` upstream; the handler never reads it, but it is part
of the upstream record). -/
structure DiskUsage where
  total : Int
  used : Int
  percent : ℚ
  deriving DecidableEq, Repr

/-- The upstream inputs of one `get_system_info` call. -/
structure SysWorld where
  cpu_percent : ℚ
  cpu_count : Int
  memory : VirtualMemory
  disk : DiskUsage
  gpuCall : CallOutcome
  deriving DecidableEq, Repr

/-- The record `get_system_info` returns on success. -/
structure SystemInfo where
  cpu_percent : ℚ
  cpu_count : Int
  memory_total : Int
  memory_used : Int
  memory_percent : ℚ
  disk_total : Int
  disk_used : Int
  disk_percent : ℚ
  gpu_info : String
  timestamp : String
  deriving DecidableEq, Repr

/-- Body of `/api/status` (and the record embedded in `/`): either the
`SystemInfo` dict or the outer-`except` body `{"error": str(e)}`. -/
inductive SystemInfoResponse where
  | ok (info : SystemInfo)
  | error (e : PyExc)
  deriving DecidableEq, Repr

/-- The inner `try` around the `nvidia-smi` summary query: on return code 0
the stripped stdout, on any failure (timeout, missing binary, non-zero
exit) the fallback `"Not available"`. -/
def gpuSummary : CallOutcome → String
  | .ok r => if r.returncode = 0 then pyStrip r.stdout else "Not available"
  | .timeoutExpired => "Not available"
  | .fileNotFound => "Not available"

/-- `get_system_info`: memory fields are copied from psutil (including
`memory.percent`, taken verbatim), `disk_percent` is recomputed as
`(disk.used / disk.total) * 100`; the division is unguarded, so a zero
`disk.total` raises `ZeroDivisionError` into the outer `except`. -/
def get_system_info (w : SysWorld) (now : String) : SystemInfoResponse :=
  match pyDiv w.disk.used w.disk.total with
  | .error e => .error e
  | .ok dq =>
      .ok { cpu_percent := w.cpu_percent
            cpu_count := w.cpu_count
            memory_total := w.memory.total
            memory_used := w.memory.used
            memory_percent := w.memory.percent
            disk_total := w.disk.total
            disk_used := w.disk.used
            disk_percent := dq * 100
            gpu_info := gpuSummary w.gpuCall
            timestamp := now }

/-! ## `/api/health` -/

/-- Body of `/api/health`. -/
structure HealthBody where
  status : String
  timestamp : String
  deriving DecidableEq, Repr

/-- The `/api/health` handler: unconditionally `{"status": "healthy",
"timestamp": ...}`; it consults no subsystem. -/
def health (now : String) : HealthBody :=
  { status := "healthy", timestamp := now }

/-! ## `/api/services` -/

/-- One parsed container line. -/
structure ContainerInfo where
  name : String
  status : String
  ports : String
  deriving DecidableEq, Repr

/-- Body of `/api/services` on the normal path. -/
structure ServicesBody where
  docker : String
  containers : List ContainerInfo
  error_details : List String
  timestamp : String
  deriving DecidableEq, Repr

/-- An external command the `services` handler can spawn. -/
inductive Invoked where
  | whichDocker
  | dockerPs
  deriving DecidableEq, Repr

/-- Container-line parsing: per non-blank line, `line.split(",", 2)`, lines
with fewer than three fields discarded. -/
def parseContainerLines : List String → List ContainerInfo
  | [] => []
  | line :: rest =>
      if pyStrip line = "" then parseContainerLines rest
      else
        let parts := pySplitMax line ',' 2
        if parts.length ≥ 3 then
          { name := parts.getD 0 "", status := parts.getD 1 "",
            ports := parts.getD 2 "" } :: parseContainerLines rest
        else parseContainerLines rest

/-- The `/api/services` handler, instrumented with the list of subprocesses
it spawns.  `socketExists` is `os.path.exists("/var/run/docker.sock")`;
`whichCall` and `psCall` are the outcomes of `which docker` and `docker ps`.
Every branch returns a `ServicesBody` (no raise escapes the handler, so the
HTTP status is always 200). -/
def services (socketExists : Bool) (whichCall psCall : CallOutcome)
    (now : String) : ServicesBody × List Invoked :=
  if socketExists = false then
    ({ docker := "socket not found", containers := [],
       error_details := ["Docker socket /var/run/docker.sock not found"],
       timestamp := now }, [])
  else
    match whichCall with
    | .fileNotFound =>
        ({ docker := "not available", containers := [],
           error_details := ["Docker command not found"],
           timestamp := now }, [.whichDocker])
    | .timeoutExpired =>
        ({ docker := "timeout", containers := [],
           error_details := ["Docker command timed out"],
           timestamp := now }, [.whichDocker])
    | .ok wr =>
        if wr.returncode ≠ 0 then
          ({ docker := "docker command not found", containers := [],
             error_details := ["Docker command not found in PATH"],
             timestamp := now }, [.whichDocker])
        else
          match psCall with
          | .fileNotFound =>
              ({ docker := "not available", containers := [],
                 error_details := ["Docker command not found"],
                 timestamp := now }, [.whichDocker, .dockerPs])
          | .timeoutExpired =>
              ({ docker := "timeout", containers := [],
                 error_details := ["Docker command timed out"],
                 timestamp := now }, [.whichDocker, .dockerPs])
          | .ok r =>
              if r.returncode = 0 then
                ({ docker := "running",
                   containers := parseContainerLines (pyLines r.stdout),
                   error_details := [], timestamp := now },
                 [.whichDocker, .dockerPs])
              else
                ({ docker := "not running", containers := [],
                   error_details :=
                     ["Docker ps failed: " ++ pyStrip r.stderr],
                   timestamp := now }, [.whichDocker, .dockerPs])

/-! ## `/api/gpu` -/

/-- One GPU record of the lightweight `/api/gpu` endpoint: every field is
the raw substring of the CLI line — no numeric coercion happens here. -/
structure GpuLite where
  name : String
  memory_total : String
  memory_used : String
  temperature : String
  utilization : String
  deriving DecidableEq, Repr

/-- Body of `/api/gpu`: `gpus` always present; `message` on the
degraded paths, `error` when the outer `except` fired. -/
structure GpuInfoBody where
  gpus : List GpuLite
  message : Option String
  error : Option PyExc
  timestamp : String
  deriving DecidableEq, Repr

/-- `/api/gpu` line parsing: per non-blank line, split on `", "`, keep
lines with at least 5 fields, copy the first five substrings verbatim. -/
def parseGpuLiteLines : List String → List GpuLite
  | [] => []
  | line :: rest =>
      if pyStrip line = "" then parseGpuLiteLines rest
      else
        let parts := pySplitCS line
        if parts.length ≥ 5 then
          { name := parts.getD 0 "", memory_total := parts.getD 1 "",
            memory_used := parts.getD 2 "", temperature := parts.getD 3 "",
            utilization := parts.getD 4 "" } :: parseGpuLiteLines rest
        else parseGpuLiteLines rest

/-- The `/api/gpu` handler.  `whichCall` is `which nvidia-smi` (2s timeout),
`queryCall` the `nvidia-smi --query-gpu=...` call (5s timeout).  Exceptions
from either call reach the single outer `except` and become
`{"gpus": [], "error": str(e), ...}`. -/
def gpu_info (whichCall queryCall : CallOutcome) (now : String) :
    GpuInfoBody :=
  match whichCall with
  | .timeoutExpired =>
      { gpus := [], message := none, error := some .timeoutExpired,
        timestamp := now }
  | .fileNotFound =>
      { gpus := [], message := none, error := some .fileNotFoundError,
        timestamp := now }
  | .ok wr =>
      if wr.returncode ≠ 0 then
        { gpus := [], message := some "nvidia-smi not available in container",
          error := none, timestamp := now }
      else
        match queryCall with
        | .timeoutExpired =>
            { gpus := [], message := none, error := some .timeoutExpired,
              timestamp := now }
        | .fileNotFound =>
            { gpus := [], message := none, error := some .fileNotFoundError,
              timestamp := now }
        | .ok r =>
            if r.returncode = 0 then
              { gpus := parseGpuLiteLines (pyLines r.stdout),
                message := none, error := none, timestamp := now }
            else
              { gpus := [], message := some "nvidia-smi command failed",
                error := none, timestamp := now }

/-! ## `/api/gpu/detailed` -/

/-- One GPU record of `/api/gpu/detailed`: `index` and `name` stay strings;
memory, temperature and utilization are coerced with a bare `int(...)`
(no `"N/A"` guard); only `power_draw`, `power_limit`, `clock_graphics`
and `clock_memory` carry the `"N/A" → 0` guard. -/
structure GpuDevice where
  index : String
  name : String
  memory_total : Int
  memory_used : Int
  memory_free : Int
  memory_percent : ℚ
  temperature : Int
  utilization : Int
  power_draw : ℚ
  power_limit : ℚ
  clock_graphics : Int
  clock_memory : Int
  deriving DecidableEq, Repr

/-- One compute-app process record of `/api/gpu/detailed`. -/
structure GpuProc where
  gpu_uuid : String
  pid : String
  process_name : String
  memory_used : Int
  deriving DecidableEq, Repr

/-- Body of `/api/gpu/detailed`: the success dict (with `gpus`,
`processes`, `timestamp`), or one of the two `{"error": ...}` bodies — the
literal `"nvidia-smi not available"` on a non-zero exit, or `str(e)` of the
exception that reached the outer `except`.  Neither error body carries a
`gpus` key. -/
inductive GpuDetailedResponse where
  | ok (gpus : List GpuDevice) (processes : List GpuProc) (timestamp : String)
  | errorLit (msg : String)
  | errorExc (e : PyExc)
  deriving DecidableEq, Repr

/-- The error bodies of `/api/gpu/detailed`: a JSON object whose only key
is `"error"` (no `gpus` / `processes` / `timestamp`). -/
def GpuDetailedResponse.isErrorOnly : GpuDetailedResponse → Bool
  | .ok _ _ _ => false
  | .errorLit _ => true
  | .errorExc _ => true

/-- One detailed GPU line, fields in the evaluation order of the Python
dict literal: `int(parts[2])`, `int(parts[3])`, `int(parts[4])`, then
`round((int(parts[3]) / int(parts[2])) * 100, 1)`, then
`int(parts[5])`, `int(parts[6])`, then the four `"N/A"`-guarded fields.
Any `ValueError`/`ZeroDivisionError` propagates (`Except.error`). -/
def parseGpuDeviceLine (parts : List String) : Except PyExc GpuDevice :=
  match pyInt (parts.getD 2 "") with
  | .error e => .error e
  | .ok mt =>
    match pyInt (parts.getD 3 "") with
    | .error e => .error e
    | .ok mu =>
      match pyInt (parts.getD 4 "") with
      | .error e => .error e
      | .ok mf =>
        match pyDiv mu mt with
        | .error e => .error e
        | .ok ratio =>
          match pyInt (parts.getD 5 "") with
          | .error e => .error e
          | .ok temp =>
            match pyInt (parts.getD 6 "") with
            | .error e => .error e
            | .ok util =>
              match (if parts.getD 7 "" ≠ "N/A"
                     then pyFloat (parts.getD 7 "") else .ok 0) with
              | .error e => .error e
              | .ok pd =>
                match (if parts.getD 8 "" ≠ "N/A"
                       then pyFloat (parts.getD 8 "") else .ok 0) with
                | .error e => .error e
                | .ok pl =>
                  match (if parts.getD 9 "" ≠ "N/A"
                         then pyInt (parts.getD 9 "") else .ok 0) with
                  | .error e => .error e
                  | .ok cg =>
                    match (if parts.getD 10 "" ≠ "N/A"
                           then pyInt (parts.getD 10 "") else .ok 0) with
                    | .error e => .error e
                    | .ok cm =>
                      .ok { index := parts.getD 0 "",
                            name := parts.getD 1 "",
                            memory_total := mt, memory_used := mu,
                            memory_free := mf,
                            memory_percent := pyRound1 (ratio * 100),
                            temperature := temp, utilization := util,
                            power_draw := pd, power_limit := pl,
                            clock_graphics := cg, clock_memory := cm }

/-- The detailed-GPU parsing loop: non-blank lines split on `", "`, lines
with fewer than 11 fields discarded, exceptions abort the loop. -/
def parseGpuDeviceLines : List String → Except PyExc (List GpuDevice)
  | [] => .ok []
  | line :: rest =>
      if pyStrip line = "" then parseGpuDeviceLines rest
      else
        let parts := pySplitCS line
        if parts.length ≥ 11 then
          match parseGpuDeviceLine parts with
          | .error e => .error e
          | .ok g =>
            match parseGpuDeviceLines rest with
            | .error e => .error e
            | .ok gs => .ok (g :: gs)
        else parseGpuDeviceLines rest

/-- Compute-app line parsing of `/api/gpu/detailed`: `used_memory` is
`"N/A"`-guarded; a non-numeric non-`"N/A"` value raises past the inner
`except` (which only catches the subprocess exceptions). -/
def parseGpuProcLines : List String → Except PyExc (List GpuProc)
  | [] => .ok []
  | line :: rest =>
      if pyStrip line = "" then parseGpuProcLines rest
      else
        let parts := pySplitCS line
        if parts.length ≥ 4 then
          match (if parts.getD 3 "" ≠ "N/A"
                 then pyInt (parts.getD 3 "") else .ok 0) with
          | .error e => .error e
          | .ok mu =>
            match parseGpuProcLines rest with
            | .error e => .error e
            | .ok ps =>
              .ok ({ gpu_uuid := parts.getD 0 "", pid := parts.getD 1 "",
                     process_name := parts.getD 2 "",
                     memory_used := mu } :: ps)
        else parseGpuProcLines rest

/-- The inner `try` around the compute-apps query of `/api/gpu/detailed`:
subprocess exceptions are swallowed (`pass`, leaving `processes = []`), a
non-zero exit leaves `processes = []`, but a parse `ValueError` escapes to
the outer `except`. -/
def gpuDetailedProcs : CallOutcome → Except PyExc (List GpuProc)
  | .timeoutExpired => .ok []
  | .fileNotFound => .ok []
  | .ok r =>
      if r.returncode = 0 then parseGpuProcLines (pyLines r.stdout)
      else .ok []

/-- The `/api/gpu/detailed` handler.  `gpuCall` is the detailed query,
`procCall` the compute-apps query (run only after GPU-line parsing
succeeded, as in the source). -/
def gpu_detailed (gpuCall procCall : CallOutcome) (now : String) :
    GpuDetailedResponse :=
  match gpuCall with
  | .timeoutExpired => .errorExc .timeoutExpired
  | .fileNotFound => .errorExc .fileNotFoundError
  | .ok r =>
      if r.returncode = 0 then
        match parseGpuDeviceLines (pyLines r.stdout) with
        | .error e => .errorExc e
        | .ok gpus =>
          match gpuDetailedProcs procCall with
          | .error e => .errorExc e
          | .ok procs => .ok gpus procs now
      else .errorLit "nvidia-smi not available"

/-! ## `/api/gpu/realtime` -/

/-- One realtime sample: `index`, `utilization`, `memory_used`,
`memory_total`, `temperature` via bare `int(...)`; `memory_percent`
recomputed; `power_draw` `"N/A"`-guarded; numeric epoch timestamp. -/
structure GpuSample where
  index : Int
  utilization : Int
  memory_used : Int
  memory_total : Int
  memory_percent : ℚ
  temperature : Int
  power_draw : ℚ
  timestamp : ℚ
  deriving DecidableEq, Repr

/-- Body of `/api/gpu/realtime`: success dict, the literal error body on a
non-zero exit, or the outer-`except` body. -/
inductive GpuRealtimeResponse where
  | ok (gpus : List GpuSample) (timestamp : String)
  | errorLit (msg : String)
  | errorExc (e : PyExc)
  deriving DecidableEq, Repr

/-- The error bodies of `/api/gpu/realtime`: only an `"error"` key. -/
def GpuRealtimeResponse.isErrorOnly : GpuRealtimeResponse → Bool
  | .ok _ _ => false
  | .errorLit _ => true
  | .errorExc _ => true

/-- One realtime line, in the dict literal's evaluation order:
`int(parts[0])`, `int(parts[1])`, `int(parts[2])`, `int(parts[3])`, then
the unguarded division for `memory_percent`, then `int(parts[4])` and the
guarded `power_draw`. -/
def parseGpuSampleLine (parts : List String) (nowEpoch : ℚ) :
    Except PyExc GpuSample :=
  match pyInt (parts.getD 0 "") with
  | .error e => .error e
  | .ok idx =>
    match pyInt (parts.getD 1 "") with
    | .error e => .error e
    | .ok util =>
      match pyInt (parts.getD 2 "") with
      | .error e => .error e
      | .ok mu =>
        match pyInt (parts.getD 3 "") with
        | .error e => .error e
        | .ok mt =>
          match pyDiv mu mt with
          | .error e => .error e
          | .ok ratio =>
            match pyInt (parts.getD 4 "") with
            | .error e => .error e
            | .ok temp =>
              match (if parts.getD 5 "" ≠ "N/A"
                     then pyFloat (parts.getD 5 "") else .ok 0) with
              | .error e => .error e
              | .ok pd =>
                .ok { index := idx, utilization := util, memory_used := mu,
                      memory_total := mt,
                      memory_percent := pyRound1 (ratio * 100),
                      temperature := temp, power_draw := pd,
                      timestamp := nowEpoch }

/-- The realtime parsing loop: non-blank lines split on `", "`, lines with
fewer than 6 fields discarded, exceptions abort the loop. -/
def parseGpuSampleLines (nowEpoch : ℚ) :
    List String → Except PyExc (List GpuSample)
  | [] => .ok []
  | line :: rest =>
      if pyStrip line = "" then parseGpuSampleLines nowEpoch rest
      else
        let parts := pySplitCS line
        if parts.length ≥ 6 then
          match parseGpuSampleLine parts nowEpoch with
          | .error e => .error e
          | .ok g =>
            match parseGpuSampleLines nowEpoch rest with
            | .error e => .error e
            | .ok gs => .ok (g :: gs)
        else parseGpuSampleLines nowEpoch rest

/-- The `/api/gpu/realtime` handler. -/
def gpu_realtime (gpuCall : CallOutcome) (now : String) (nowEpoch : ℚ) :
    GpuRealtimeResponse :=
  match gpuCall with
  | .timeoutExpired => .errorExc .timeoutExpired
  | .fileNotFound => .errorExc .fileNotFoundError
  | .ok r =>
      if r.returncode = 0 then
        match parseGpuSampleLines nowEpoch (pyLines r.stdout) with
        | .error e => .errorExc e
        | .ok gpus => .ok gpus now
      else .errorLit "nvidia-smi not available"

/-! ## `/api/gpu/processes` -/

/-- One process record of `/api/gpu/processes`: the base fields from the
compute-apps query, plus the five optional keys added together by
`process_info.update(...)` when the `ps` lookup succeeds. -/
structure ProcDetail where
  gpu_uuid : String
  pid : String
  process_name : String
  memory_used : Int
  process_type : String
  user : Option String
  cpu_percent : Option ℚ
  memory_percent : Option ℚ
  runtime : Option String
  command : Option String
  deriving DecidableEq, Repr

/-- Body of `/api/gpu/processes`: `processes` always present, `message` on
the degraded paths, `error` when the outer `except` fired. -/
structure GpuProcessesBody where
  processes : List ProcDetail
  message : Option String
  error : Option PyExc
  timestamp : String
  deriving DecidableEq, Repr

/-- The enrichment fields harvested from one `ps -p <pid> -o
user,pcpu,pmem,etime,command --no-headers` call. -/
structure PsFields where
  user : String
  cpu_percent : ℚ
  memory_percent : ℚ
  runtime : String
  command : String
  deriving DecidableEq, Repr

/-- The inner `try` around the `ps` lookup (2s timeout): subprocess
exceptions and a non-zero exit or empty output leave the record
unenriched (`none`); fewer than 4 whitespace fields likewise; a
`ValueError` from the `"-"`-guarded `float(...)` coercions escapes to the
outer `except`. -/
def psEnrich : CallOutcome → Except PyExc (Option PsFields)
  | .timeoutExpired => .ok none
  | .fileNotFound => .ok none
  | .ok pr =>
      if pr.returncode = 0 ∧ pyStrip pr.stdout ≠ "" then
        let pp := pySplitWs (pyStrip pr.stdout)
        if pp.length ≥ 4 then
          match (if pp.getD 1 "" ≠ "-"
                 then pyFloat (pp.getD 1 "") else .ok 0) with
          | .error e => .error e
          | .ok cpu =>
            match (if pp.getD 2 "" ≠ "-"
                   then pyFloat (pp.getD 2 "") else .ok 0) with
            | .error e => .error e
            | .ok mem =>
              .ok (some { user := pp.getD 0 "", cpu_percent := cpu,
                          memory_percent := mem, runtime := pp.getD 3 "",
                          command := if pp.length > 4
                                     then String.mk (joinWithChar ' ' ((pp.drop 4).map String.toList))
                                     else "" })
        else .ok none
      else .ok none

/-- The `/api/gpu/processes` line loop: non-blank lines split on `", "`,
lines with fewer than 5 fields discarded; the `ps` lookup runs only when
the pid field is not `"N/A"` (outcome given by `psWorld` keyed on the pid
text). -/
def parseProcDetailLines (psWorld : String → CallOutcome) :
    List String → Except PyExc (List ProcDetail)
  | [] => .ok []
  | line :: rest =>
      if pyStrip line = "" then parseProcDetailLines psWorld rest
      else
        let parts := pySplitCS line
        if parts.length ≥ 5 then
          match (if parts.getD 3 "" ≠ "N/A"
                 then pyInt (parts.getD 3 "") else .ok 0) with
          | .error e => .error e
          | .ok mu =>
            match (if parts.getD 1 "" ≠ "N/A"
                   then psEnrich (psWorld (parts.getD 1 ""))
                   else .ok none) with
            | .error e => .error e
            | .ok enrich =>
              match parseProcDetailLines psWorld rest with
              | .error e => .error e
              | .ok ps =>
                .ok ({ gpu_uuid := parts.getD 0 "", pid := parts.getD 1 "",
                       process_name := parts.getD 2 "", memory_used := mu,
                       process_type := if parts.length > 4
                                       then parts.getD 4 "" else "Unknown",
                       user := enrich.map PsFields.user,
                       cpu_percent := enrich.map PsFields.cpu_percent,
                       memory_percent := enrich.map PsFields.memory_percent,
                       runtime := enrich.map PsFields.runtime,
                       command := enrich.map PsFields.command } :: ps)
        else parseProcDetailLines psWorld rest

/-- The `/api/gpu/processes` handler.  `whichCall` is `which nvidia-smi`
(2s timeout), `queryCall` the compute-apps query (5s timeout), `psWorld`
the outcome of the `ps` lookup for each pid text. -/
def gpu_processes (whichCall queryCall : CallOutcome)
    (psWorld : String → CallOutcome) (now : String) : GpuProcessesBody :=
  match whichCall with
  | .timeoutExpired =>
      { processes := [], message := none, error := some .timeoutExpired,
        timestamp := now }
  | .fileNotFound =>
      { processes := [], message := none, error := some .fileNotFoundError,
        timestamp := now }
  | .ok wr =>
      if wr.returncode ≠ 0 then
        { processes := [],
          message := some "nvidia-smi not available in container",
          error := none, timestamp := now }
      else
        match queryCall with
        | .timeoutExpired =>
            { processes := [], message := none,
              error := some .timeoutExpired, timestamp := now }
        | .fileNotFound =>
            { processes := [], message := none,
              error := some .fileNotFoundError, timestamp := now }
        | .ok r =>
            if r.returncode = 0 then
              match parseProcDetailLines psWorld (pyLines r.stdout) with
              | .error e =>
                  { processes := [], message := none, error := some e,
                    timestamp := now }
              | .ok procs =>
                  { processes := procs, message := none, error := none,
                    timestamp := now }
            else
              { processes := [],
                message := some "No GPU processes found or nvidia-smi error",
                error := none, timestamp := now }

/-! ## Claim theorems -/

/-- C8: for every call, regardless of any other subsystem (the handler
consults none), `/api/health` returns a body whose `status` field is
`"healthy"` together with a timestamp. -/
theorem C8_health_always_healthy (now : String) :
    health now = { status := "healthy", timestamp := now } :=
  rfl

/-- C4: whenever `/var/run/docker.sock` does not exist, `/api/services`
returns the status `"socket not found"` with an empty container list, and
spawns no subprocess at all (neither `which docker` nor `docker ps`),
whatever the outcomes of those calls would have been. -/
theorem C4_socket_absent_no_cli (whichCall psCall : CallOutcome)
    (now : String) :
    services false whichCall psCall now
      = ({ docker := "socket not found", containers := [],
           error_details := ["Docker socket /var/run/docker.sock not found"],
           timestamp := now }, ([] : List Invoked)) :=
  rfl

/-- C5: on the CLI output line
`"0, Tesla T4, 16384, 2048, 14336, 45, 10, 25.5, 70.0, 1200, 800"`,
`/api/gpu/detailed` produces exactly one `GpuDevice` with
`memory_percent = round(2048/16384*100, 1) = 12.5` (and the other fields
parsed as in the source). -/
theorem C5_example_line_detailed :
    gpu_detailed
        (.ok ⟨0, "0, Tesla T4, 16384, 2048, 14336, 45, 10, 25.5, 70.0, 1200, 800", ""⟩)
        (.ok ⟨0, "", ""⟩) "t"
      = .ok [{ index := "0", name := "Tesla T4", memory_total := 16384,
               memory_used := 2048, memory_free := 14336,
               memory_percent := 125/10, temperature := 45,
               utilization := 10, power_draw := 255/10, power_limit := 70,
               clock_graphics := 1200, clock_memory := 800 }] [] "t" := by
  decide

/-- C10: the `memory_percent` division is unguarded: on a well-formed line
whose `memory.total` field is `"0"`, both `/api/gpu/detailed` and
`/api/gpu/realtime` raise `ZeroDivisionError` into the endpoint boundary
and return an `{"error": ...}` body instead of a `gpus` list. -/
theorem C10_zero_total_error :
    gpu_detailed (.ok ⟨0, "0, G, 0, 5, 0, 45, 10, N/A, N/A, 100, 100", ""⟩)
        (.ok ⟨0, "", ""⟩) "t"
      = .errorExc .zeroDivisionError
    ∧ gpu_realtime (.ok ⟨0, "0, 10, 5, 0, 45, N/A", ""⟩) "t" 1
      = .errorExc .zeroDivisionError := by
  decide

/-- C1 counterexample: with upstream memory stats `total = 100`,
`used = 50`, psutil-computed `percent = 42`, the successful
`get_system_info` body carries `memory_percent = 42` — the upstream value
verbatim — which differs from `used/total*100 = 50` recomputed from the
returned fields.  (`disk_percent`, by contrast, is recomputed: 50/200*100
= 25, not the upstream 99.) -/
theorem C1_memory_percent_upstream_cex :
    get_system_info
        { cpu_percent := 7, cpu_count := 4,
          memory := { total := 100, used := 50, percent := 42 },
          disk := { total := 200, used := 50, percent := 99 },
          gpuCall := .timeoutExpired } "t"
      = .ok { cpu_percent := 7, cpu_count := 4, memory_total := 100,
              memory_used := 50, memory_percent := 42, disk_total := 200,
              disk_used := 50, disk_percent := 25,
              gpu_info := "Not available", timestamp := "t" }
    ∧ (42 : ℚ) ≠ (50 : ℚ) / (100 : ℚ) * 100 := by
  decide

/-- C2 counterexample: a line whose `memory.total` field is the sentinel
`"N/A"` is *not* coerced to 0 on `/api/gpu/detailed`: the bare
`int(parts[2])` raises `ValueError`, which escapes to the endpoint
boundary and produces an `{"error": ...}` response. -/
theorem C2_na_memory_total_cex :
    gpu_detailed
        (.ok ⟨0, "0, GPU, N/A, 0, 0, 45, 10, N/A, N/A, N/A, N/A", ""⟩)
        (.ok ⟨0, "", ""⟩) "t"
      = .errorExc (.valueError "N/A") := by
  decide

/-- C3 counterexample: when the detailed `nvidia-smi` query exits non-zero,
`/api/gpu/detailed` returns the bare `{"error": "nvidia-smi not
available"}` body, which carries no `gpus` key — i.e. a descriptive string
only, not a default/empty value for the data plus a string. -/
theorem C3_bare_error_body_cex :
    gpu_detailed (.ok ⟨1, "", ""⟩) (.ok ⟨0, "", ""⟩) "t"
      = .errorLit "nvidia-smi not available"
    ∧ (gpu_detailed (.ok ⟨1, "", ""⟩) (.ok ⟨0, "", ""⟩) "t").isErrorOnly
      = true := by
  decide

/-- C1 amended: on every successful `get_system_info` body, `disk_percent`
is recomputed as `used/total*100` from the returned disk fields, while
`memory_percent` is taken verbatim from the upstream psutil `percent`
field (it is not recomputed from the returned memory fields). -/
theorem C1_percent_fields (w : SysWorld) (now : String) (s : SystemInfo)
    (h : get_system_info w now = .ok s) :
    s.memory_percent = w.memory.percent
    ∧ s.memory_total = w.memory.total
    ∧ s.memory_used = w.memory.used
    ∧ s.disk_total = w.disk.total
    ∧ s.disk_used = w.disk.used
    ∧ s.disk_percent = (s.disk_used : ℚ) / (s.disk_total : ℚ) * 100 := by
  unfold get_system_info at h
  cases hd : pyDiv w.disk.used w.disk.total with
  | error e => rw [hd] at h; exact absurd h (by simp)
  | ok dq =>
    rw [hd] at h
    unfold pyDiv at hd
    by_cases hz : w.disk.total = 0
    · rw [if_pos hz] at hd; exact absurd hd (by simp)
    · rw [if_neg hz] at hd
      simp only [Except.ok.injEq] at hd
      simp only [SystemInfoResponse.ok.injEq] at h
      subst h
      subst hd
      exact ⟨rfl, rfl, rfl, rfl, rfl, rfl⟩

/-- C1 witness: the amended statement applied to a concrete world. -/
theorem C1_percent_fields_witness :
    get_system_info
        { cpu_percent := 1, cpu_count := 8,
          memory := { total := 1000, used := 250, percent := 30 },
          disk := { total := 400, used := 100, percent := 77 },
          gpuCall := .fileNotFound } "u"
      = .ok { cpu_percent := 1, cpu_count := 8, memory_total := 1000,
              memory_used := 250, memory_percent := 30, disk_total := 400,
              disk_used := 100, disk_percent := 25,
              gpu_info := "Not available", timestamp := "u" }
    ∧ (SystemInfo.memory_percent
        { cpu_percent := 1, cpu_count := 8, memory_total := 1000,
          memory_used := 250, memory_percent := 30, disk_total := 400,
          disk_used := 100, disk_percent := 25,
          gpu_info := "Not available", timestamp := "u" })
      = (30 : ℚ)
    ∧ (SystemInfo.disk_percent
        { cpu_percent := 1, cpu_count := 8, memory_total := 1000,
          memory_used := 250, memory_percent := 30, disk_total := 400,
          disk_used := 100, disk_percent := 25,
          gpu_info := "Not available", timestamp := "u" })
      = ((100 : Int) : ℚ) / ((400 : Int) : ℚ) * 100 := by
  have h := C1_percent_fields
    { cpu_percent := 1, cpu_count := 8,
      memory := { total := 1000, used := 250, percent := 30 },
      disk := { total := 400, used := 100, percent := 77 },
      gpuCall := .fileNotFound } "u"
    { cpu_percent := 1, cpu_count := 8, memory_total := 1000,
      memory_used := 250, memory_percent := 30, disk_total := 400,
      disk_used := 100, disk_percent := 25,
      gpu_info := "Not available", timestamp := "u" } (by decide)
  exact ⟨by decide, h.1, h.2.2.2.2.2⟩

/-- C6: the container-list line `"web,Up 2 hours,0.0.0.0:8080->8080/tcp"`
yields exactly one `ContainerInfo` with the three fields split on the
first two commas, and any line with fewer than three comma-separated
fields is discarded. -/
theorem C6_container_line :
    services true (.ok ⟨0, "/usr/bin/docker", ""⟩)
        (.ok ⟨0, "web,Up 2 hours,0.0.0.0:8080->8080/tcp", ""⟩) "t"
      = ({ docker := "running",
           containers := [{ name := "web", status := "Up 2 hours",
                            ports := "0.0.0.0:8080->8080/tcp" }],
           error_details := [], timestamp := "t" },
         [.whichDocker, .dockerPs])
    ∧ (∀ (line : String) (rest : List String),
        (pySplitMax line ',' 2).length < 3 →
        parseContainerLines (line :: rest) = parseContainerLines rest) := by
  refine ⟨by decide, ?_⟩
  intro line rest h
  by_cases hb : pyStrip line = ""
  · simp only [parseContainerLines, if_pos hb]
  · simp only [parseContainerLines, if_neg hb]
    rw [if_neg (by omega)]

/-- C6 witness: the discard clause applied to the two-field line
`"a,b"`. -/
theorem C6_container_line_witness :
    (pySplitMax "a,b" ',' 2).length < 3
    ∧ parseContainerLines ["a,b"] = parseContainerLines [] :=
  ⟨by decide, C6_container_line.2 "a,b" [] (by decide)⟩

/-- C7: whenever `which nvidia-smi` reports the CLI absent (non-zero
exit), `/api/gpu` returns `gpus = []` with a message and
`/api/gpu/processes` returns `processes = []` with a message; neither
carries an error. -/
theorem C7_cli_absent_empty (wr : CmdResult) (qo : CallOutcome)
    (ps : String → CallOutcome) (now : String) (h : wr.returncode ≠ 0) :
    gpu_info (.ok wr) qo now
      = { gpus := [],
          message := some "nvidia-smi not available in container",
          error := none, timestamp := now }
    ∧ gpu_processes (.ok wr) qo ps now
      = { processes := [],
          message := some "nvidia-smi not available in container",
          error := none, timestamp := now } := by
  constructor
  · simp only [gpu_info, if_pos h]
  · simp only [gpu_processes, if_pos h]

/-- C7 witness: the statement applied to a concrete absent-CLI world. -/
theorem C7_cli_absent_empty_witness :
    ((1 : Int) ≠ 0)
    ∧ gpu_info (.ok ⟨1, "", ""⟩) (.ok ⟨0, "", ""⟩) "t"
        = { gpus := [],
            message := some "nvidia-smi not available in container",
            error := none, timestamp := "t" }
    ∧ gpu_processes (.ok ⟨1, "", ""⟩) (.ok ⟨0, "", ""⟩)
          (fun _ => .ok ⟨0, "", ""⟩) "t"
        = { processes := [],
            message := some "nvidia-smi not available in container",
            error := none, timestamp := "t" } := by
  refine ⟨by decide, ?_, ?_⟩
  · exact (C7_cli_absent_empty ⟨1, "", ""⟩ (.ok ⟨0, "", ""⟩)
      (fun _ => .ok ⟨0, "", ""⟩) "t" (by decide)).1
  · exact (C7_cli_absent_empty ⟨1, "", ""⟩ (.ok ⟨0, "", ""⟩)
      (fun _ => .ok ⟨0, "", ""⟩) "t" (by decide)).2

/-- C2 amended: on `/api/gpu/detailed` the sentinel `"N/A"` is coerced to
0 only in the four guarded fields (`power_draw`, `power_limit`,
`clock_graphics`, `clock_memory`); a `"N/A"` in `memory_total` (parsed by
a bare `int(...)`) instead raises a parse error that aborts the line
loop. -/
theorem C2_na_guard_amended :
    (∀ (parts : List String) (mt mu mf temp util : Int),
        pyInt (parts.getD 2 "") = .ok mt →
        pyInt (parts.getD 3 "") = .ok mu →
        pyInt (parts.getD 4 "") = .ok mf →
        mt ≠ 0 →
        pyInt (parts.getD 5 "") = .ok temp →
        pyInt (parts.getD 6 "") = .ok util →
        parts.getD 7 "" = "N/A" → parts.getD 8 "" = "N/A" →
        parts.getD 9 "" = "N/A" → parts.getD 10 "" = "N/A" →
        parseGpuDeviceLine parts
          = .ok { index := parts.getD 0 "", name := parts.getD 1 "",
                  memory_total := mt, memory_used := mu, memory_free := mf,
                  memory_percent := pyRound1 ((mu : ℚ) / (mt : ℚ) * 100),
                  temperature := temp, utilization := util,
                  power_draw := 0, power_limit := 0,
                  clock_graphics := 0, clock_memory := 0 })
    ∧ (∀ (parts : List String) (e : PyExc),
        pyInt (parts.getD 2 "") = .error e →
        parseGpuDeviceLine parts = .error e) := by
  constructor
  · intro parts mt mu mf temp util h2 h3 h4 hz h5 h6 h7 h8 h9 h10
    simp only [parseGpuDeviceLine, h2, h3, h4, h5, h6, h7, h8, h9, h10,
      pyDiv, if_neg hz, reduceIte]
    simp only [if_neg (show ¬(("N/A" : String) ≠ "N/A") from fun hc => hc rfl)]
  · intro parts e h2
    simp only [parseGpuDeviceLine, h2]

/-- C2 witness: the guarded-fields clause applied to a concrete line with
`"N/A"` in all four guarded fields. -/
theorem C2_na_guard_witness :
    pyInt "16384" = .ok 16384
    ∧ pyInt "2048" = .ok 2048
    ∧ pyInt "14336" = .ok 14336
    ∧ ((16384 : Int) ≠ 0)
    ∧ pyInt "45" = .ok 45
    ∧ pyInt "10" = .ok 10
    ∧ parseGpuDeviceLine
        ["0", "G", "16384", "2048", "14336", "45", "10",
         "N/A", "N/A", "N/A", "N/A"]
      = .ok { index := "0", name := "G", memory_total := 16384,
              memory_used := 2048, memory_free := 14336,
              memory_percent :=
                pyRound1 (((2048 : Int) : ℚ) / ((16384 : Int) : ℚ) * 100),
              temperature := 45, utilization := 10, power_draw := 0,
              power_limit := 0, clock_graphics := 0, clock_memory := 0 } := by
  refine ⟨rfl, rfl, rfl, by decide, rfl, rfl, ?_⟩
  exact C2_na_guard_amended.1
    ["0", "G", "16384", "2048", "14336", "45", "10",
     "N/A", "N/A", "N/A", "N/A"]
    16384 2048 14336 45 10 rfl rfl rfl (by decide)
    rfl rfl rfl rfl rfl rfl

/-- C9: on `/api/gpu` every per-GPU field is the raw substring of the CLI
line (no numeric coercion): for any single non-blank line with at least
five `", "`-separated fields, the record's five fields are exactly the
first five split substrings — in particular a `"N/A"` field is returned
unchanged. -/
theorem C9_gpu_info_raw_strings (line now : String)
    (hstrip : pyStripChars line.toList = line.toList)
    (hne : line ≠ "")
    (hnl : splitOnChar '\n' line.toList = [line.toList])
    (h5 : (pySplitCS line).length ≥ 5) :
    gpu_info (.ok ⟨0, "", ""⟩) (.ok ⟨0, line, ""⟩) now
      = { gpus := [{ name := (pySplitCS line).getD 0 "",
                     memory_total := (pySplitCS line).getD 1 "",
                     memory_used := (pySplitCS line).getD 2 "",
                     temperature := (pySplitCS line).getD 3 "",
                     utilization := (pySplitCS line).getD 4 "" }],
          message := none, error := none, timestamp := now } := by
  have hl : pyLines line = [line] := by
    unfold pyLines
    rw [hstrip, hnl]
    rfl
  have hblank : pyStrip line ≠ "" := by
    unfold pyStrip
    rw [hstrip]
    exact hne
  simp only [gpu_info, hl]
  rw [if_neg (by decide)]
  simp only [if_true]
  simp only [parseGpuLiteLines, if_neg hblank, if_pos h5]

/-- C9 witness: the statement applied to a line whose numeric fields are
all the sentinel `"N/A"`. -/
theorem C9_gpu_info_raw_strings_witness :
    pyStripChars ("Tesla T4, N/A, N/A, N/A, N/A" : String).toList
      = ("Tesla T4, N/A, N/A, N/A, N/A" : String).toList
    ∧ ("Tesla T4, N/A, N/A, N/A, N/A" : String) ≠ ""
    ∧ splitOnChar '\n' ("Tesla T4, N/A, N/A, N/A, N/A" : String).toList
      = [("Tesla T4, N/A, N/A, N/A, N/A" : String).toList]
    ∧ (pySplitCS "Tesla T4, N/A, N/A, N/A, N/A").length ≥ 5
    ∧ gpu_info (.ok ⟨0, "", ""⟩)
          (.ok ⟨0, "Tesla T4, N/A, N/A, N/A, N/A", ""⟩) "t"
        = { gpus := [{ name := "Tesla T4", memory_total := "N/A",
                       memory_used := "N/A", temperature := "N/A",
                       utilization := "N/A" }],
            message := none, error := none, timestamp := "t" } := by
  refine ⟨by decide, by decide, by decide, by decide, ?_⟩
  exact (C9_gpu_info_raw_strings "Tesla T4, N/A, N/A, N/A, N/A" "t"
    (by decide) (by decide) (by decide) (by decide)).trans (by decide)

/-- A failing completed call has a non-zero return code. -/
lemma isFail_ok_returncode {r : CmdResult}
    (h : (CallOutcome.ok r).isFail = true) : r.returncode ≠ 0 := by
  simpa [CallOutcome.isFail, bne_iff_ne] using h

/-- C3 amended: every external-call failure (timeout, missing binary,
non-zero exit) is absorbed by the handler, which still returns a JSON body
(hence HTTP 200, never a 5xx).  `/api/gpu`, `/api/gpu/processes`,
`/api/services` and the system-info GPU summary degrade to a
default/empty data value plus a descriptive string; `/api/gpu/detailed`
and `/api/gpu/realtime` instead return a bare `{"error": <string>}` body
with no `gpus` key; a failing per-pid `ps` lookup in `/api/gpu/processes`
degrades silently to an unenriched record. -/
theorem C3_failure_degradation :
    (∀ (o po : CallOutcome) (now : String), o.isFail = true →
        (gpu_detailed o po now).isErrorOnly = true)
    ∧ (∀ (o : CallOutcome) (now : String) (ne : ℚ), o.isFail = true →
        (gpu_realtime o now ne).isErrorOnly = true)
    ∧ (∀ (wo qo : CallOutcome) (now : String), wo.isFail = true →
        (gpu_info wo qo now).gpus = []
        ∧ ((gpu_info wo qo now).message.isSome = true
           ∨ (gpu_info wo qo now).error.isSome = true))
    ∧ (∀ (wr : CmdResult) (qo : CallOutcome) (now : String),
        wr.returncode = 0 → qo.isFail = true →
        (gpu_info (.ok wr) qo now).gpus = []
        ∧ ((gpu_info (.ok wr) qo now).message.isSome = true
           ∨ (gpu_info (.ok wr) qo now).error.isSome = true))
    ∧ (∀ (wo qo : CallOutcome) (ps : String → CallOutcome) (now : String),
        wo.isFail = true →
        (gpu_processes wo qo ps now).processes = []
        ∧ ((gpu_processes wo qo ps now).message.isSome = true
           ∨ (gpu_processes wo qo ps now).error.isSome = true))
    ∧ (∀ (wr : CmdResult) (qo : CallOutcome) (ps : String → CallOutcome)
          (now : String), wr.returncode = 0 → qo.isFail = true →
        (gpu_processes (.ok wr) qo ps now).processes = []
        ∧ ((gpu_processes (.ok wr) qo ps now).message.isSome = true
           ∨ (gpu_processes (.ok wr) qo ps now).error.isSome = true))
    ∧ (∀ (wo po : CallOutcome) (now : String), wo.isFail = true →
        (services true wo po now).1.containers = []
        ∧ (services true wo po now).1.error_details ≠ [])
    ∧ (∀ (wr : CmdResult) (po : CallOutcome) (now : String),
        wr.returncode = 0 → po.isFail = true →
        (services true (.ok wr) po now).1.containers = []
        ∧ (services true (.ok wr) po now).1.error_details ≠ [])
    ∧ (∀ (o : CallOutcome), o.isFail = true → psEnrich o = .ok none)
    ∧ (∀ (o : CallOutcome), o.isFail = true →
        gpuSummary o = "Not available") := by
  refine ⟨?_, ?_, ?_, ?_, ?_, ?_, ?_, ?_, ?_, ?_⟩
  · intro o po now h
    cases o with
    | timeoutExpired => rfl
    | fileNotFound => rfl
    | ok r =>
        simp only [gpu_detailed, if_neg (isFail_ok_returncode h)]
        rfl
  · intro o now ne h
    cases o with
    | timeoutExpired => rfl
    | fileNotFound => rfl
    | ok r =>
        simp only [gpu_realtime, if_neg (isFail_ok_returncode h)]
        rfl
  · intro wo qo now h
    cases wo with
    | timeoutExpired => simp [gpu_info]
    | fileNotFound => simp [gpu_info]
    | ok r => simp [gpu_info, if_pos (isFail_ok_returncode h)]
  · intro wr qo now h0 h
    have hno : ¬ wr.returncode ≠ 0 := fun hc => hc h0
    cases qo with
    | timeoutExpired => simp [gpu_info, if_neg hno]
    | fileNotFound => simp [gpu_info, if_neg hno]
    | ok r => simp [gpu_info, if_neg hno, if_neg (isFail_ok_returncode h)]
  · intro wo qo ps now h
    cases wo with
    | timeoutExpired => simp [gpu_processes]
    | fileNotFound => simp [gpu_processes]
    | ok r => simp [gpu_processes, if_pos (isFail_ok_returncode h)]
  · intro wr qo ps now h0 h
    have hno : ¬ wr.returncode ≠ 0 := fun hc => hc h0
    cases qo with
    | timeoutExpired => simp [gpu_processes, if_neg hno]
    | fileNotFound => simp [gpu_processes, if_neg hno]
    | ok r =>
        simp [gpu_processes, if_neg hno, if_neg (isFail_ok_returncode h)]
  · intro wo po now h
    cases wo with
    | timeoutExpired => simp [services]
    | fileNotFound => simp [services]
    | ok r => simp [services, if_pos (isFail_ok_returncode h)]
  · intro wr po now h0 h
    have hno : ¬ wr.returncode ≠ 0 := fun hc => hc h0
    cases po with
    | timeoutExpired => simp [services, if_neg hno]
    | fileNotFound => simp [services, if_neg hno]
    | ok r => simp [services, if_neg hno, if_neg (isFail_ok_returncode h)]
  · intro o h
    cases o with
    | timeoutExpired => rfl
    | fileNotFound => rfl
    | ok r =>
        have hr := isFail_ok_returncode h
        simp only [psEnrich,
          if_neg (show ¬(r.returncode = 0 ∧ pyStrip r.stdout ≠ "") from
            fun hc => hr hc.1)]
  · intro o h
    cases o with
    | timeoutExpired => rfl
    | fileNotFound => rfl
    | ok r =>
        simp only [gpuSummary, if_neg (isFail_ok_returncode h)]

/-- C3 witness: the detailed-endpoint clause applied to a concrete failing
world (the query binary missing). -/
theorem C3_failure_degradation_witness :
    CallOutcome.fileNotFound.isFail = true
    ∧ (gpu_detailed .fileNotFound (.ok ⟨0, "", ""⟩) "t").isErrorOnly
      = true :=
  ⟨rfl, C3_failure_degradation.1 .fileNotFound (.ok ⟨0, "", ""⟩) "t" rfl⟩

end OdinsEye
